import Mathlib

/-!
Verification of the Rocket-Simulation repository
(source file RocketSimulationAlyGaber.py).

The Python program computes over IEEE floats; the embedding uses exact
rationals.  Rounding to two decimal places (the Python idiom
round(x, 2)) is modelled by round-to-nearest on the scaled rational.
The transcendental primitives of the Python math module (math.pi,
math.sqrt, math.e ** x, math.sin) have no exact rational value, so they
are abstracted as rational-valued fields of a MathPrims record; the
theorems about concrete numeric outputs assume rational lower and upper
bounds on those fields, bounds that contain both the true real value and
the double-precision value the Python runtime uses.
-/

namespace RocketSim

/-- Model of Python round(x, 2): round to the nearest multiple of 1/100.
Ties round half-up here; no value verified below sits at a tie where this
differs from the banker's rounding of Python floats. -/
def round2 (q : ℚ) : ℚ := (round (q * 100) : ℤ) / 100

/-- Source constant FEET_TO_METER = 3.28. -/
def FEET_TO_METER : ℚ := 328 / 100

/-- Source constant DENSITY_OF_ROCKET = 1.225. -/
def DENSITY_OF_ROCKET : ℚ := 1225 / 1000

/-- Source constant ROCKET_SMALL_MASS = 100000. -/
def ROCKET_SMALL_MASS : ℚ := 100000

/-- Source constant ROCKET_MEDIUM_MASS = 400000. -/
def ROCKET_MEDIUM_MASS : ℚ := 400000

/-- Source constant SMALL_ROCKET_FUEL_ECON = 1360. -/
def SMALL_ROCKET_FUEL_ECON : ℚ := 1360

/-- Source constant MED_ROCKET_FUEL_ECON = 2000. -/
def MED_ROCKET_FUEL_ECON : ℚ := 2000

/-- Source constant LARGE_ROCKET_FUEL_ECON = 2721. -/
def LARGE_ROCKET_FUEL_ECON : ℚ := 2721

/-- Source constant METAL_COST = 5. -/
def METAL_COST : ℚ := 5

/-- Source constant FUEL_COST = 6.1. -/
def FUEL_COST : ℚ := 61 / 10

/-- Source constant TAX = 1.15. -/
def TAX : ℚ := 115 / 100

/-- Source constant WEIGHT_THRESHOLD_MAXIMUM = 0.05. -/
def WEIGHT_THRESHOLD_MAXIMUM : ℚ := 5 / 100

/-- Source constant VOLUME_THRESHOLD_MAXIMUM = 0.4. -/
def VOLUME_THRESHOLD_MAXIMUM : ℚ := 4 / 10

/-- Source constant MAX_BOX_WEIGHT = 500. -/
def MAX_BOX_WEIGHT : ℚ := 500

/-- Source constant MIN_BOX_WEIGHT = 20. -/
def MIN_BOX_WEIGHT : ℚ := 20

/-- Source constant MIN_BOX_VOLUME = 0.125. -/
def MIN_BOX_VOLUME : ℚ := 125 / 1000

/-- Source constant GRAVITY_CONSTANT = 9.81. -/
def GRAVITY_CONSTANT : ℚ := 981 / 100

/-- Rational-valued stand-ins for the transcendental primitives of the
Python math module used by the source: math.pi, math.sqrt, math.e ** x
and math.sin.  Theorems constrain them with rational interval bounds. -/
structure MathPrims where
  pi : ℚ
  sqrt : ℚ → ℚ
  exp : ℚ → ℚ
  sin : ℚ → ℚ

/-- Embedding of rocket_volume (source lines 44-67): cone plus cylinder
volume, rounded to two decimals. -/
def rocket_volume (M : MathPrims) (radius height_cone height_cyl : ℚ) : ℚ :=
  let volume_cone := (M.pi * radius ^ 2) * (height_cone / 3)
  let volume_cyl := M.pi * radius ^ 2 * height_cyl
  round2 (volume_cone + volume_cyl)

/-- Embedding of rocket_area (source lines 70-95): lateral cone area plus
lateral cylinder area minus the two circular caps, rounded. -/
def rocket_area (M : MathPrims) (radius height_cone height_cyl : ℚ) : ℚ :=
  let area_cone := M.pi * radius * (radius + M.sqrt (height_cone ^ 2 + radius ^ 2))
  let area_cyl := 2 * M.pi * radius * (height_cyl + radius)
  let area_circle := area_cone + area_cyl - 2 * (M.pi * radius ^ 2)
  round2 area_circle

/-- Embedding of rocket_mass (source lines 98-120): volume times density,
rounded. -/
def rocket_mass (M : MathPrims) (radius height_cone height_cyl : ℚ) : ℚ :=
  round2 (rocket_volume M radius height_cone height_cyl * DENSITY_OF_ROCKET)

/-- Embedding of rocket_fuel (source lines 123-157): exponential base term
plus a mass-tiered consumption addend, rounded.  The mass is recomputed in
each tier test, as in the source. -/
def rocket_fuel (M : MathPrims)
    (radius height_cone height_cyl velocity_e velocity_i flight_time : ℚ) : ℚ :=
  let base := rocket_mass M radius height_cone height_cyl *
    (M.exp (velocity_i / velocity_e) - 1)
  let total_fuel :=
    if rocket_mass M radius height_cone height_cyl < ROCKET_SMALL_MASS then
      base + SMALL_ROCKET_FUEL_ECON * flight_time
    else if rocket_mass M radius height_cone height_cyl < ROCKET_MEDIUM_MASS then
      base + MED_ROCKET_FUEL_ECON * flight_time
    else
      base + LARGE_ROCKET_FUEL_ECON * flight_time
  round2 total_fuel

/-- Embedding of calculate_cost (source lines 160-194).  The Python test
is tax == True; for the numeric flags the program passes (the int read in
rocket_main, or a bool), that comparison holds exactly when the flag
equals 1, so the embedding branches on tax = 1. -/
def calculate_cost (M : MathPrims)
    (radius height_cone height_cyl velocity_e velocity_i flight_time tax : ℚ) : ℚ :=
  let metal_cost := rocket_area M radius height_cone height_cyl * METAL_COST
  let fuel_cost := rocket_fuel M radius height_cone height_cyl
    velocity_e velocity_i flight_time * FUEL_COST
  let cost := if tax = 1 then (metal_cost + fuel_cost) * TAX
    else metal_cost + fuel_cost
  round2 cost

/-- Python float division, which raises ZeroDivisionError on a zero
divisor: modelled as an Option. -/
def divQ (a b : ℚ) : Option ℚ := if b = 0 then none else some (a / b)

/-- rocket_fuel with the fault of the division velocity_i / velocity_e
(source line 149) made explicit: none exactly when the division faults.
All remaining operations of the function are total. -/
def rocket_fuelChecked (M : MathPrims)
    (radius height_cone height_cyl velocity_e velocity_i flight_time : ℚ) : Option ℚ :=
  match divQ velocity_i velocity_e with
  | none => none
  | some ratio =>
    let base := rocket_mass M radius height_cone height_cyl * (M.exp ratio - 1)
    let total_fuel :=
      if rocket_mass M radius height_cone height_cyl < ROCKET_SMALL_MASS then
        base + SMALL_ROCKET_FUEL_ECON * flight_time
      else if rocket_mass M radius height_cone height_cyl < ROCKET_MEDIUM_MASS then
        base + MED_ROCKET_FUEL_ECON * flight_time
      else
        base + LARGE_ROCKET_FUEL_ECON * flight_time
    some (round2 total_fuel)

/-- calculate_cost calling the checked rocket_fuel: the caller installs no
handler (source lines 186-194), so a fuel fault propagates. -/
def calculate_costChecked (M : MathPrims)
    (radius height_cone height_cyl velocity_e velocity_i flight_time tax : ℚ) :
    Option ℚ :=
  match rocket_fuelChecked M radius height_cone height_cyl
      velocity_e velocity_i flight_time with
  | none => none
  | some fuel_value =>
    let metal_cost := rocket_area M radius height_cone height_cyl * METAL_COST
    let fuel_cost := fuel_value * FUEL_COST
    let cost := if tax = 1 then (metal_cost + fuel_cost) * TAX
      else metal_cost + fuel_cost
    some (round2 cost)

/-- Embedding of compute_storage_space (source lines 197-221). -/
def compute_storage_space (M : MathPrims) (radius height_cyl : ℚ) : ℚ × ℚ × ℚ :=
  let storage_length := M.sqrt 2 * radius
  let storage_width := storage_length
  let storage_height := height_cyl / 2
  (round2 storage_width, round2 storage_length, round2 storage_height)

/-- One entry of the external item source of load_rocket: either the
sentinel string Done, or the four numeric fields of a box read by the four
input calls of one iteration. -/
inductive ItemEntry where
  | done : ItemEntry
  | box (weight width length height : ℚ) : ItemEntry
deriving DecidableEq

/-- The mutable locals of the load_rocket loop (source lines 246-249). -/
structure LoadState where
  total_weight : ℚ
  total_volume : ℚ
  weight_of_all_items : ℚ
  volume_of_all_items : ℚ
deriving DecidableEq

/-- The while-loop condition of load_rocket (source lines 251-254). -/
def LoadCond (rocket_initial_weight storage_volume : ℚ) (s : LoadState) : Prop :=
  s.total_weight <
      rocket_initial_weight + rocket_initial_weight * WEIGHT_THRESHOLD_MAXIMUM ∧
    s.total_volume < storage_volume + storage_volume * VOLUME_THRESHOLD_MAXIMUM

instance (riw sv : ℚ) (s : LoadState) : Decidable (LoadCond riw sv s) :=
  inferInstanceAs (Decidable (_ ∧ _))

/-- Outcome of one pass through the load_rocket while-loop body. -/
inductive StepResult where
  | ret (w : ℚ) (rest : List ItemEntry) : StepResult
  | next (s : LoadState) (rest : List ItemEntry) : StepResult
  | fell (rest : List ItemEntry) : StepResult
  | noInput : StepResult
deriving DecidableEq

/-- One iteration of the load_rocket while loop (source lines 251-294):
the loop-condition test, the two pre-checks, the Done sentinel, the
unconditional accumulation of the solicited item into the pending
accumulators, then the weight check, the volume check, and the accept
branch.  ret is an explicit return, next continues the loop with the
updated state, fell is the fall through of a false loop condition, and
noInput marks an exhausted item source. -/
def load_rocket_step (rocket_initial_weight storage_volume : ℚ)
    (s : LoadState) (items : List ItemEntry) : StepResult :=
  if LoadCond rocket_initial_weight storage_volume s then
    if rocket_initial_weight * WEIGHT_THRESHOLD_MAXIMUM - s.weight_of_all_items <
        MIN_BOX_WEIGHT then
      .ret (round2 s.total_weight) items
    else if storage_volume * VOLUME_THRESHOLD_MAXIMUM - s.volume_of_all_items <
        MIN_BOX_VOLUME then
      .ret (round2 s.total_weight) items
    else
      match items with
      | [] => .noInput
      | .done :: rest => .ret (round2 s.total_weight) rest
      | .box item_weight item_width item_length item_height :: rest =>
        let item_volume := item_width * item_length * item_height
        let weight_of_all_items := s.weight_of_all_items + item_weight
        let volume_of_all_items := s.volume_of_all_items + item_volume
        if item_weight < MIN_BOX_WEIGHT ∨ item_weight > MAX_BOX_WEIGHT ∨
            weight_of_all_items > rocket_initial_weight * WEIGHT_THRESHOLD_MAXIMUM then
          .next ⟨s.total_weight, s.total_volume,
            weight_of_all_items - item_weight, volume_of_all_items⟩ rest
        else if item_volume < MIN_BOX_VOLUME ∨
            volume_of_all_items > storage_volume * VOLUME_THRESHOLD_MAXIMUM then
          .next ⟨s.total_weight, s.total_volume,
            weight_of_all_items, volume_of_all_items - item_volume⟩ rest
        else
          .next ⟨s.total_weight + weight_of_all_items,
            s.total_volume + volume_of_all_items,
            weight_of_all_items, volume_of_all_items⟩ rest
  else .fell items

/-- Result of a load_rocket run: returned models the explicit returns of
round(total_weight, 2), fellThrough models the implicit None produced when
the while condition goes false and control falls off the function body,
and outOfItems marks an exhausted item source (in Python a further input
call would fault). -/
inductive LoadResult where
  | returned (w : ℚ) : LoadResult
  | fellThrough : LoadResult
  | outOfItems : LoadResult
deriving DecidableEq

/-- The load_rocket while loop (source lines 251-294) as recursion over
the list of entries the item source will supply.  Alongside the result it
returns the entries not consumed. -/
def load_rocket_loop (rocket_initial_weight storage_volume : ℚ)
    (s : LoadState) (items : List ItemEntry) : LoadResult × List ItemEntry :=
  if LoadCond rocket_initial_weight storage_volume s then
    if rocket_initial_weight * WEIGHT_THRESHOLD_MAXIMUM - s.weight_of_all_items <
        MIN_BOX_WEIGHT then
      (.returned (round2 s.total_weight), items)
    else if storage_volume * VOLUME_THRESHOLD_MAXIMUM - s.volume_of_all_items <
        MIN_BOX_VOLUME then
      (.returned (round2 s.total_weight), items)
    else
      match items with
      | [] => (.outOfItems, [])
      | .done :: rest => (.returned (round2 s.total_weight), rest)
      | .box item_weight item_width item_length item_height :: rest =>
        let item_volume := item_width * item_length * item_height
        let weight_of_all_items := s.weight_of_all_items + item_weight
        let volume_of_all_items := s.volume_of_all_items + item_volume
        if item_weight < MIN_BOX_WEIGHT ∨ item_weight > MAX_BOX_WEIGHT ∨
            weight_of_all_items > rocket_initial_weight * WEIGHT_THRESHOLD_MAXIMUM then
          load_rocket_loop rocket_initial_weight storage_volume
            ⟨s.total_weight, s.total_volume,
              weight_of_all_items - item_weight, volume_of_all_items⟩ rest
        else if item_volume < MIN_BOX_VOLUME ∨
            volume_of_all_items > storage_volume * VOLUME_THRESHOLD_MAXIMUM then
          load_rocket_loop rocket_initial_weight storage_volume
            ⟨s.total_weight, s.total_volume,
              weight_of_all_items, volume_of_all_items - item_volume⟩ rest
        else
          load_rocket_loop rocket_initial_weight storage_volume
            ⟨s.total_weight + weight_of_all_items,
              s.total_volume + volume_of_all_items,
              weight_of_all_items, volume_of_all_items⟩ rest
  else (.fellThrough, items)

/-- Embedding of load_rocket (source lines 224-294): derives the storage
volume from the storage-space footprint, then runs the loading loop from
the initial state of source lines 246-249. -/
def load_rocket (M : MathPrims) (rocket_initial_weight radius height_cyl : ℚ)
    (items : List ItemEntry) : LoadResult × List ItemEntry :=
  let dims := compute_storage_space M radius height_cyl
  let storage_volume := round2 (dims.1 * dims.2.1 * dims.2.2)
  load_rocket_loop rocket_initial_weight storage_volume
    ⟨rocket_initial_weight, storage_volume, 0, 0⟩ items

/-- The load_rocket while loop as an unbounded-iteration loop with an
explicit step budget: none when the budget is exhausted before the loop
finishes.  This is the step-indexed semantics of the Python while
statement, against which termination is stated. -/
def load_rocket_while (rocket_initial_weight storage_volume : ℚ)
    (s : LoadState) (items : List ItemEntry) :
    Nat → Option (LoadResult × List ItemEntry)
  | 0 => none
  | fuel + 1 =>
    if LoadCond rocket_initial_weight storage_volume s then
      if rocket_initial_weight * WEIGHT_THRESHOLD_MAXIMUM - s.weight_of_all_items <
          MIN_BOX_WEIGHT then
        some (.returned (round2 s.total_weight), items)
      else if storage_volume * VOLUME_THRESHOLD_MAXIMUM - s.volume_of_all_items <
          MIN_BOX_VOLUME then
        some (.returned (round2 s.total_weight), items)
      else
        match items with
        | [] => some (.outOfItems, [])
        | .done :: rest => some (.returned (round2 s.total_weight), rest)
        | .box item_weight item_width item_length item_height :: rest =>
          let item_volume := item_width * item_length * item_height
          let weight_of_all_items := s.weight_of_all_items + item_weight
          let volume_of_all_items := s.volume_of_all_items + item_volume
          if item_weight < MIN_BOX_WEIGHT ∨ item_weight > MAX_BOX_WEIGHT ∨
              weight_of_all_items > rocket_initial_weight * WEIGHT_THRESHOLD_MAXIMUM then
            load_rocket_while rocket_initial_weight storage_volume
              ⟨s.total_weight, s.total_volume,
                weight_of_all_items - item_weight, volume_of_all_items⟩ rest fuel
          else if item_volume < MIN_BOX_VOLUME ∨
              volume_of_all_items > storage_volume * VOLUME_THRESHOLD_MAXIMUM then
            load_rocket_while rocket_initial_weight storage_volume
              ⟨s.total_weight, s.total_volume,
                weight_of_all_items, volume_of_all_items - item_volume⟩ rest fuel
          else
            load_rocket_while rocket_initial_weight storage_volume
              ⟨s.total_weight + weight_of_all_items,
                s.total_volume + volume_of_all_items,
                weight_of_all_items, volume_of_all_items⟩ rest fuel
    else some (.fellThrough, items)

/-- Python int() applied to a float: truncation toward zero. -/
def pyInt (q : ℚ) : ℤ := if 0 ≤ q then ⌊q⌋ else ⌈q⌉

/-- The height computed at loop index k of projectile_sim (source lines
340-342), at time t = k * interval. -/
def heightAt (velocity_i sin_angle interval : ℚ) (k : ℕ) : ℚ :=
  -(1 / 2) * GRAVITY_CONSTANT * ((k : ℚ) * interval) ^ 2 +
    velocity_i * sin_angle * ((k : ℚ) * interval)

/-- The body of the projectile_sim for loop over the list of loop
indices: emit the rounded height while the unrounded height is
nonnegative, return at the first negative height. -/
def projSimGo (velocity_i sin_angle interval : ℚ) : List ℕ → List ℚ
  | [] => []
  | k :: ks =>
    if 0 ≤ heightAt velocity_i sin_angle interval k then
      round2 (heightAt velocity_i sin_angle interval k) ::
        projSimGo velocity_i sin_angle interval ks
    else []

/-- Embedding of projectile_sim (source lines 298-346): the list of
heights printed, in order.  The Python loop iterates over
range(0, int(simulation_time / interval) + 1) and returns at the first
negative height. -/
def projectile_sim (M : MathPrims)
    (simulation_time interval velocity_i angle : ℚ) : List ℚ :=
  projSimGo velocity_i (M.sin angle) interval
    (List.range (pyInt (simulation_time / interval) + 1).toNat)

/-- A concrete MathPrims instance with rational values of the
double-precision constants the Python runtime computes for the inputs
exercised by the witnesses: math.pi, sqrt 125, e to the 1.2, sin 0.785. -/
def M0 : MathPrims where
  pi := 3141592653589793 / 10 ^ 15
  sqrt := fun _ => 11180339887498949 / 10 ^ 15
  exp := fun _ => 33201169227365472 / 10 ^ 16
  sin := fun _ => 706825181105366 / 10 ^ 15

/-- The mass-tiered fuel-consumption addend as the specification words it
(three tiers at thresholds 100000 and 400000 with rates 1360, 2000, 2721);
compared against the branch structure of rocket_fuel. -/
def tier_addend_spec (m flight_time : ℚ) : ℚ :=
  if m < 100000 then 1360 * flight_time
  else if m < 400000 then 2000 * flight_time
  else 2721 * flight_time

/-- States of the load_rocket loop at the start of some iteration: the
initial state of source lines 246-249 when the while condition lets the
first iteration start, and every state produced by an iteration that
consumed an item, provided the while condition lets the next iteration
start. -/
inductive ReachableLoadState (riw sv : ℚ) : LoadState → Prop where
  | init (h : LoadCond riw sv ⟨riw, sv, 0, 0⟩) :
      ReachableLoadState riw sv ⟨riw, sv, 0, 0⟩
  | step (s s' : LoadState) (i : ItemEntry)
      (hs : ReachableLoadState riw sv s)
      (hstep : load_rocket_step riw sv s [i] = .next s' [])
      (hcond : LoadCond riw sv s') : ReachableLoadState riw sv s'

end RocketSim

namespace RocketSim

/-- If q * 100 lies within a half-unit of the integer n, then rounding q
to two decimals yields n / 100. -/
theorem round2_eq_div (q : ℚ) (n : ℤ) (h1 : (n : ℚ) - 1 / 2 ≤ q * 100)
    (h2 : q * 100 < (n : ℚ) + 1 / 2) : round2 q = (n : ℚ) / 100 := by
  have hr : round (q * 100) = n := by
    rw [round_eq, Int.floor_eq_iff]
    refine ⟨by linarith, ?_⟩
    linarith
  rw [round2, hr]

/-- Rounding to two decimals moves a rational by at most 1/200. -/
theorem round2_close (q : ℚ) : |round2 q - q| ≤ 1 / 200 := by
  have h : |(round (q * 100) : ℚ) - q * 100| ≤ 1 / 2 := by
    have h2 := abs_sub_round (q * 100)
    rwa [abs_sub_comm] at h2
  have e : (round (q * 100) : ℚ) / 100 - q =
      ((round (q * 100) : ℚ) - q * 100) / 100 := by ring
  rw [round2, e, abs_div, abs_of_pos (show (0 : ℚ) < 100 by norm_num)]
  linarith

/-- With pi in a rational interval containing both the real pi and the
double-precision math.pi, the docstring value of rocket_volume(5,10,15). -/
theorem rocket_volume_5_10_15 (M : MathPrims)
    (h1 : 314159265358979 / 10 ^ 14 ≤ M.pi) (h2 : M.pi ≤ 31415926535898 / 10 ^ 13) :
    rocket_volume M 5 10 15 = 14399 / 10 := by
  have e : rocket_volume M 5 10 15 =
      round2 ((M.pi * 5 ^ 2) * (10 / 3) + M.pi * 5 ^ 2 * 15) := rfl
  rw [e, round2_eq_div _ 143990 (by push_cast; linarith) (by push_cast; linarith)]
  norm_num

/-- Under the same pi bounds, the docstring value of rocket_mass(5,10,15). -/
theorem rocket_mass_5_10_15 (M : MathPrims)
    (h1 : 314159265358979 / 10 ^ 14 ≤ M.pi) (h2 : M.pi ≤ 31415926535898 / 10 ^ 13) :
    rocket_mass M 5 10 15 = 44097 / 25 := by
  have e : rocket_mass M 5 10 15 =
      round2 (rocket_volume M 5 10 15 * DENSITY_OF_ROCKET) := rfl
  rw [e, rocket_volume_5_10_15 M h1 h2]
  norm_num [DENSITY_OF_ROCKET, round2, round_eq]

/-- The projectile loop body equals take-while-nonnegative followed by
rounding, over any index list. -/
theorem projSimGo_takeWhile (velocity_i sin_angle interval : ℚ) (l : List ℕ) :
    projSimGo velocity_i sin_angle interval l =
      (l.takeWhile (fun j => decide (0 ≤ heightAt velocity_i sin_angle interval j))).map
        (fun j => round2 (heightAt velocity_i sin_angle interval j)) := by
  induction l with
  | nil => rfl
  | cons k ks ih =>
    simp only [projSimGo, List.takeWhile_cons]
    by_cases hp : 0 ≤ heightAt velocity_i sin_angle interval k
    · simp [hp, ih]
    · simp [hp]

/-- Claim C1: the claim says every exit of load_rocket, including the one
where the outer while condition goes false, returns the rounded final
total weight.  The code instead falls off the function body there and
returns None: with rocket_initial_weight 1000, storage volume 1000 and an
accepted box of weight 50 (volume 1), the accept raises total_weight to
1050, the while condition 1050 less-than 1050 fails, and the run ends in
the fellThrough outcome (the implicit Python None), not in a returned
weight. -/
theorem load_rocket_none_on_loop_condition_exit :
    load_rocket_loop 1000 1000 ⟨1000, 1000, 0, 0⟩ [.box 50 1 1 1] =
      (.fellThrough, []) := by
  norm_num [load_rocket_loop, LoadCond, WEIGHT_THRESHOLD_MAXIMUM,
    VOLUME_THRESHOLD_MAXIMUM, MIN_BOX_WEIGHT, MIN_BOX_VOLUME, MAX_BOX_WEIGHT]

/-- Claim C2, counterexample: the claim says a rejected iteration restores
both pending accumulators exactly.  In a weight rejection (box of weight
600 with volume 1, against budgets 500 and 40 from the state shown) the
code restores only weight_of_all_items; volume_of_all_items moves from 0
to 1, the item volume, and 1 is not the pre-item value 0. -/
theorem weight_rejection_keeps_item_volume_in_pending :
    load_rocket_step 10000 100 ⟨10000, 100, 0, 0⟩ [.box 600 1 1 1] =
      .next ⟨10000, 100, 0, 1⟩ [] ∧ (1 : ℚ) ≠ 0 := by
  constructor
  · norm_num [load_rocket_step, LoadCond, WEIGHT_THRESHOLD_MAXIMUM,
      VOLUME_THRESHOLD_MAXIMUM, MIN_BOX_WEIGHT, MIN_BOX_VOLUME, MAX_BOX_WEIGHT]
  · norm_num

/-- Claim C2, amended: a rejected iteration never changes total_weight or
total_volume; the pending accumulator whose check failed is restored
exactly to its pre-item value, while the other pending accumulator keeps
the item's contribution (a weight rejection keeps the item volume in
volume_of_all_items, a volume rejection keeps the item weight in
weight_of_all_items). -/
theorem load_rocket_step_rejection_frame (riw sv : ℚ) (s : LoadState)
    (w wd lg ht : ℚ) (rest : List ItemEntry)
    (hcond : LoadCond riw sv s)
    (hpre1 : ¬(riw * WEIGHT_THRESHOLD_MAXIMUM - s.weight_of_all_items < MIN_BOX_WEIGHT))
    (hpre2 : ¬(sv * VOLUME_THRESHOLD_MAXIMUM - s.volume_of_all_items < MIN_BOX_VOLUME)) :
    (w < MIN_BOX_WEIGHT ∨ w > MAX_BOX_WEIGHT ∨
        s.weight_of_all_items + w > riw * WEIGHT_THRESHOLD_MAXIMUM →
      load_rocket_step riw sv s (.box w wd lg ht :: rest) =
        .next ⟨s.total_weight, s.total_volume, s.weight_of_all_items,
          s.volume_of_all_items + wd * lg * ht⟩ rest) ∧
    (¬(w < MIN_BOX_WEIGHT ∨ w > MAX_BOX_WEIGHT ∨
        s.weight_of_all_items + w > riw * WEIGHT_THRESHOLD_MAXIMUM) →
      wd * lg * ht < MIN_BOX_VOLUME ∨
        s.volume_of_all_items + wd * lg * ht > sv * VOLUME_THRESHOLD_MAXIMUM →
      load_rocket_step riw sv s (.box w wd lg ht :: rest) =
        .next ⟨s.total_weight, s.total_volume, s.weight_of_all_items + w,
          s.volume_of_all_items⟩ rest) := by
  constructor
  · intro hrej
    simp only [load_rocket_step]
    rw [if_pos hcond, if_neg hpre1, if_neg hpre2, if_pos hrej]
    congr 1
    ring_nf
  · intro hwok hrej
    simp only [load_rocket_step]
    rw [if_pos hcond, if_neg hpre1, if_neg hpre2, if_neg hwok, if_pos hrej]
    congr 1
    ring_nf

/-- Witness for the amended claim C2, weight-rejection branch, at the
concrete state and item of the counterexample setting but with nonzero
pending accumulators. -/
theorem load_rocket_step_rejection_frame_witness :
    (600 : ℚ) > MAX_BOX_WEIGHT ∧
    load_rocket_step 10000 100 ⟨10000, 100, 5, 2⟩ [.box 600 1 1 1] =
      .next ⟨10000, 100, 5, 2 + 1 * 1 * 1⟩ [] :=
  ⟨by norm_num [MAX_BOX_WEIGHT],
   (load_rocket_step_rejection_frame 10000 100 ⟨10000, 100, 5, 2⟩ 600 1 1 1 []
      (by norm_num [LoadCond, WEIGHT_THRESHOLD_MAXIMUM, VOLUME_THRESHOLD_MAXIMUM])
      (by norm_num [WEIGHT_THRESHOLD_MAXIMUM, MIN_BOX_WEIGHT])
      (by norm_num [VOLUME_THRESHOLD_MAXIMUM, MIN_BOX_VOLUME])).1
     (by norm_num [MIN_BOX_WEIGHT, MAX_BOX_WEIGHT, WEIGHT_THRESHOLD_MAXIMUM])⟩

/-- Claim C3: in an iteration that solicits a box, the weight and the
computed volume width*length*height are folded into the pending
accumulators before validation (the weight and volume checks in the
hypotheses test the already-augmented accumulators), and on acceptance the
entire accumulated pending totals, not just the current item, are added to
total_weight and total_volume. -/
theorem load_rocket_step_accept_folds_entire_pending (riw sv : ℚ) (s : LoadState)
    (w wd lg ht : ℚ) (rest : List ItemEntry)
    (hcond : LoadCond riw sv s)
    (hpre1 : ¬(riw * WEIGHT_THRESHOLD_MAXIMUM - s.weight_of_all_items < MIN_BOX_WEIGHT))
    (hpre2 : ¬(sv * VOLUME_THRESHOLD_MAXIMUM - s.volume_of_all_items < MIN_BOX_VOLUME))
    (hw : ¬(w < MIN_BOX_WEIGHT ∨ w > MAX_BOX_WEIGHT ∨
        s.weight_of_all_items + w > riw * WEIGHT_THRESHOLD_MAXIMUM))
    (hv : ¬(wd * lg * ht < MIN_BOX_VOLUME ∨
        s.volume_of_all_items + wd * lg * ht > sv * VOLUME_THRESHOLD_MAXIMUM)) :
    load_rocket_step riw sv s (.box w wd lg ht :: rest) =
      .next ⟨s.total_weight + (s.weight_of_all_items + w),
        s.total_volume + (s.volume_of_all_items + wd * lg * ht),
        s.weight_of_all_items + w, s.volume_of_all_items + wd * lg * ht⟩ rest := by
  simp only [load_rocket_step]
  rw [if_pos hcond, if_neg hpre1, if_neg hpre2, if_neg hw, if_neg hv]

/-- Witness for claim C3: an accepted box of weight 40 and volume 2 on a
state with pending accumulators 30 and 1 folds the whole pending totals 70
and 3 into the totals. -/
theorem load_rocket_step_accept_folds_entire_pending_witness :
    LoadCond 10000 100 ⟨10000, 100, 30, 1⟩ ∧
    load_rocket_step 10000 100 ⟨10000, 100, 30, 1⟩ [.box 40 1 2 1] =
      .next ⟨10000 + (30 + 40), 100 + (1 + 1 * 2 * 1), 30 + 40, 1 + 1 * 2 * 1⟩ [] :=
  ⟨by norm_num [LoadCond, WEIGHT_THRESHOLD_MAXIMUM, VOLUME_THRESHOLD_MAXIMUM],
   load_rocket_step_accept_folds_entire_pending 10000 100 ⟨10000, 100, 30, 1⟩ 40 1 2 1 []
     (by norm_num [LoadCond, WEIGHT_THRESHOLD_MAXIMUM, VOLUME_THRESHOLD_MAXIMUM])
     (by norm_num [WEIGHT_THRESHOLD_MAXIMUM, MIN_BOX_WEIGHT])
     (by norm_num [VOLUME_THRESHOLD_MAXIMUM, MIN_BOX_VOLUME])
     (by norm_num [MIN_BOX_WEIGHT, MAX_BOX_WEIGHT, WEIGHT_THRESHOLD_MAXIMUM])
     (by norm_num [MIN_BOX_VOLUME, VOLUME_THRESHOLD_MAXIMUM])⟩

/-- Claim C4: at the start of an iteration (the while condition holds), if
the remaining weight budget is below the minimum box weight, or otherwise
the remaining volume budget is below the minimum box volume, the loop
returns round2 of the current total_weight at once and consumes nothing
from the item source (the full item list is left over). -/
theorem load_rocket_precheck_returns_total_weight (riw sv : ℚ) (s : LoadState)
    (items : List ItemEntry) (hcond : LoadCond riw sv s)
    (hpre : riw * WEIGHT_THRESHOLD_MAXIMUM - s.weight_of_all_items < MIN_BOX_WEIGHT ∨
      (¬(riw * WEIGHT_THRESHOLD_MAXIMUM - s.weight_of_all_items < MIN_BOX_WEIGHT) ∧
        sv * VOLUME_THRESHOLD_MAXIMUM - s.volume_of_all_items < MIN_BOX_VOLUME)) :
    load_rocket_loop riw sv s items = (.returned (round2 s.total_weight), items) := by
  rcases hpre with h1 | ⟨h1, h2⟩
  · rw [load_rocket_loop.eq_def, if_pos hcond, if_pos h1]
  · rw [load_rocket_loop.eq_def, if_pos hcond, if_neg h1, if_pos h2]

/-- Witness for claim C4, the particular case of the claim: with
rocket_initial_weight 100 the weight budget 5 is smaller than 20, so the
loader returns on the first pre-check and consumes no item. -/
theorem load_rocket_precheck_returns_total_weight_witness :
    LoadCond 100 10 ⟨100, 10, 0, 0⟩ ∧
    load_rocket_loop 100 10 ⟨100, 10, 0, 0⟩ [.box 30 1 1 1] =
      (.returned (round2 (100 : ℚ)), [.box 30 1 1 1]) :=
  ⟨by norm_num [LoadCond, WEIGHT_THRESHOLD_MAXIMUM, VOLUME_THRESHOLD_MAXIMUM],
   load_rocket_precheck_returns_total_weight 100 10 ⟨100, 10, 0, 0⟩ [.box 30 1 1 1]
     (by norm_num [LoadCond, WEIGHT_THRESHOLD_MAXIMUM, VOLUME_THRESHOLD_MAXIMUM])
     (Or.inl (by norm_num [WEIGHT_THRESHOLD_MAXIMUM, MIN_BOX_WEIGHT]))⟩

/-- Claim C5, counterexample: the claim says any truthy tax flag triggers
the 1.15 multiplier.  The code compares the flag for equality with True,
so the truthy value 2 produces the same cost as the falsy value 0, while
the value 1 (numerically equal to True) produces a different cost. -/
theorem calculate_cost_truthy_flag_counterexample :
    (2 : ℚ) ≠ 0 ∧
    calculate_cost M0 5 10 15 2500 3000 120 2 =
      calculate_cost M0 5 10 15 2500 3000 120 0 ∧
    calculate_cost M0 5 10 15 2500 3000 120 1 ≠
      calculate_cost M0 5 10 15 2500 3000 120 0 := by
  refine ⟨by norm_num, ?_, ?_⟩
  · simp only [calculate_cost]
    norm_num
  · norm_num [calculate_cost, rocket_area, rocket_fuel, rocket_mass, rocket_volume, M0,
      round2, round_eq, METAL_COST, FUEL_COST, TAX, DENSITY_OF_ROCKET,
      ROCKET_SMALL_MASS, ROCKET_MEDIUM_MASS, SMALL_ROCKET_FUEL_ECON,
      MED_ROCKET_FUEL_ECON, LARGE_ROCKET_FUEL_ECON]

/-- Claim C5, amended: in calculate_cost the deciding rule is exact
equality of the tax flag with 1, the numeric value of the canonical true
sentinel: the 1.15 multiplier applies when tax = 1 and not otherwise; and
for fixed remaining inputs the cost with tax differs from 1.15 times the
cost without tax by at most 43/4000, the rounding tolerance. -/
theorem calculate_cost_tax_equality_rule (M : MathPrims)
    (radius height_cone height_cyl velocity_e velocity_i flight_time : ℚ) :
    (∀ tax : ℚ, tax = 1 →
      calculate_cost M radius height_cone height_cyl velocity_e velocity_i flight_time tax =
        round2 ((rocket_area M radius height_cone height_cyl * METAL_COST +
          rocket_fuel M radius height_cone height_cyl velocity_e velocity_i flight_time *
            FUEL_COST) * TAX)) ∧
    (∀ tax : ℚ, tax ≠ 1 →
      calculate_cost M radius height_cone height_cyl velocity_e velocity_i flight_time tax =
        round2 (rocket_area M radius height_cone height_cyl * METAL_COST +
          rocket_fuel M radius height_cone height_cyl velocity_e velocity_i flight_time *
            FUEL_COST)) ∧
    |calculate_cost M radius height_cone height_cyl velocity_e velocity_i flight_time 1 -
      TAX * calculate_cost M radius height_cone height_cyl velocity_e velocity_i flight_time 0| ≤
        43 / 4000 := by
  refine ⟨?_, ?_, ?_⟩
  · intro tax ht
    simp only [calculate_cost, if_pos ht]
  · intro tax ht
    simp only [calculate_cost, if_neg ht]
  · have e1 : calculate_cost M radius height_cone height_cyl velocity_e velocity_i flight_time 1 =
        round2 ((rocket_area M radius height_cone height_cyl * METAL_COST +
          rocket_fuel M radius height_cone height_cyl velocity_e velocity_i flight_time *
            FUEL_COST) * TAX) := by
      simp only [calculate_cost, eq_self_iff_true, if_true]
    have e0 : calculate_cost M radius height_cone height_cyl velocity_e velocity_i flight_time 0 =
        round2 (rocket_area M radius height_cone height_cyl * METAL_COST +
          rocket_fuel M radius height_cone height_cyl velocity_e velocity_i flight_time *
            FUEL_COST) := by
      simp only [calculate_cost, if_neg (by norm_num : ¬(0 : ℚ) = 1)]
    rw [e1, e0]
    have b1 := round2_close ((rocket_area M radius height_cone height_cyl * METAL_COST +
      rocket_fuel M radius height_cone height_cyl velocity_e velocity_i flight_time *
        FUEL_COST) * TAX)
    have b0 := round2_close (rocket_area M radius height_cone height_cyl * METAL_COST +
      rocket_fuel M radius height_cone height_cyl velocity_e velocity_i flight_time * FUEL_COST)
    rw [abs_le] at b1 b0 ⊢
    have hT : TAX = 23 / 20 := by norm_num [TAX]
    rw [hT] at b1 ⊢
    constructor <;> nlinarith [b1.1, b1.2, b0.1, b0.2]

/-- Witness for the amended claim C5 at the truthy non-1 flag 2: no
multiplier is applied. -/
theorem calculate_cost_tax_equality_rule_witness :
    (2 : ℚ) ≠ 1 ∧
    calculate_cost M0 5 10 15 2500 3000 120 2 =
      round2 (rocket_area M0 5 10 15 * METAL_COST +
        rocket_fuel M0 5 10 15 2500 3000 120 * FUEL_COST) :=
  ⟨by norm_num, (calculate_cost_tax_equality_rule M0 5 10 15 2500 3000 120).2.1 2 (by norm_num)⟩

/-- Claim C6: for nonzero exhaust velocity, rocket_fuel rounds
mass * (e to the (vInitial/vExhaust) minus 1) plus the tier addend 1360,
2000 or 2721 times flight time according to mass below 100000, in
[100000, 400000), or at least 400000; and with pi and e to the 1.2 in
rational intervals containing the true and the double-precision values,
rocket_fuel(5, 10, 15, 2500, 3000, 120) = 167292.41. -/
theorem rocket_fuel_tiered_formula_and_example (M : MathPrims)
    (h1 : 314159265358979 / 10 ^ 14 ≤ M.pi) (h2 : M.pi ≤ 31415926535898 / 10 ^ 13)
    (he1 : 33201169227365 / 10 ^ 13 ≤ M.exp (6 / 5))
    (he2 : M.exp (6 / 5) ≤ 33201169227366 / 10 ^ 13)
    (radius height_cone height_cyl velocity_e velocity_i flight_time : ℚ)
    (hve : velocity_e ≠ 0) :
    rocket_fuel M radius height_cone height_cyl velocity_e velocity_i flight_time =
      round2 (rocket_mass M radius height_cone height_cyl *
        (M.exp (velocity_i / velocity_e) - 1) +
        tier_addend_spec (rocket_mass M radius height_cone height_cyl) flight_time) ∧
    rocket_fuel M 5 10 15 2500 3000 120 = 16729241 / 100 := by
  constructor
  · simp only [rocket_fuel, tier_addend_spec, ROCKET_SMALL_MASS, ROCKET_MEDIUM_MASS,
      SMALL_ROCKET_FUEL_ECON, MED_ROCKET_FUEL_ECON, LARGE_ROCKET_FUEL_ECON]
    split_ifs <;> rfl
  · have hm := rocket_mass_5_10_15 M h1 h2
    simp only [rocket_fuel]
    rw [hm]
    rw [if_pos (by norm_num [ROCKET_SMALL_MASS])]
    have hq : (3000 : ℚ) / 2500 = 6 / 5 := by norm_num
    rw [hq]
    rw [round2_eq_div _ 16729241
      (by push_cast [SMALL_ROCKET_FUEL_ECON]; linarith)
      (by push_cast [SMALL_ROCKET_FUEL_ECON]; linarith)]
    norm_num

/-- Witness for claim C6 at the concrete MathPrims instance M0. -/
theorem rocket_fuel_tiered_formula_and_example_witness :
    (2500 : ℚ) ≠ 0 ∧ rocket_fuel M0 5 10 15 2500 3000 120 = 16729241 / 100 :=
  ⟨by norm_num,
   (rocket_fuel_tiered_formula_and_example M0 (by norm_num [M0]) (by norm_num [M0])
     (by norm_num [M0]) (by norm_num [M0]) 5 10 15 2500 3000 120 (by norm_num)).2⟩

/-- Claim C7: rocket_fuel faults by division by zero exactly when the
exhaust velocity is 0; the fault propagates through calculate_cost
unrecovered; and for every nonzero exhaust velocity the checked function
returns normally, with the value of rocket_fuel. -/
theorem rocket_fuel_zero_exhaust_fault (M : MathPrims)
    (radius height_cone height_cyl velocity_e velocity_i flight_time tax : ℚ) :
    (rocket_fuelChecked M radius height_cone height_cyl velocity_e velocity_i flight_time =
        none ↔ velocity_e = 0) ∧
    (calculate_costChecked M radius height_cone height_cyl velocity_e velocity_i
        flight_time tax = none ↔ velocity_e = 0) ∧
    (velocity_e ≠ 0 →
      rocket_fuelChecked M radius height_cone height_cyl velocity_e velocity_i flight_time =
        some (rocket_fuel M radius height_cone height_cyl velocity_e velocity_i flight_time)) := by
  by_cases hve : velocity_e = 0
  · simp only [rocket_fuelChecked, calculate_costChecked, divQ, if_pos hve]
    exact ⟨by simp [hve], by simp [hve], fun h => absurd hve h⟩
  · simp only [rocket_fuelChecked, calculate_costChecked, divQ, if_neg hve]
    exact ⟨by simp [hve], by simp [hve], fun _ => rfl⟩

/-- Witness for claim C7 at a nonzero exhaust velocity. -/
theorem rocket_fuel_zero_exhaust_fault_witness :
    (2500 : ℚ) ≠ 0 ∧
    rocket_fuelChecked M0 5 10 15 2500 3000 120 =
      some (rocket_fuel M0 5 10 15 2500 3000 120) :=
  ⟨by norm_num, (rocket_fuel_zero_exhaust_fault M0 5 10 15 2500 3000 120 1).2.2 (by norm_num)⟩

/-- Claim C8: projectile_sim produces, in order, the rounded heights at
t = step * interval for step from 0 to the floor of
simulation_time / interval, cut off at the first step whose unrounded
height is negative, which is not emitted; and for the inputs
(10, 1, 30, 0.785), with sin 0.785 in a rational interval containing the
true and the double-precision values, the output is exactly
[0.0, 16.3, 22.79, 19.47, 6.34]. -/
theorem projectile_sim_heights_sequence (M : MathPrims)
    (simulation_time interval velocity_i angle : ℚ)
    (hst : 0 ≤ simulation_time) (hiv : 0 < interval) :
    projectile_sim M simulation_time interval velocity_i angle =
      ((List.range (⌊simulation_time / interval⌋ + 1).toNat).takeWhile
        (fun k => decide (0 ≤ heightAt velocity_i (M.sin angle) interval k))).map
        (fun k => round2 (heightAt velocity_i (M.sin angle) interval k)) ∧
    (7068251811053 / 10 ^ 13 ≤ M.sin (157 / 200) →
      M.sin (157 / 200) ≤ 7068251811054 / 10 ^ 13 →
      projectile_sim M 10 1 30 (157 / 200) =
        [0, 163 / 10, 2279 / 100, 1947 / 100, 317 / 50]) := by
  constructor
  · have hq : pyInt (simulation_time / interval) = ⌊simulation_time / interval⌋ := by
      rw [pyInt, if_pos (div_nonneg hst hiv.le)]
    rw [projectile_sim, hq, projSimGo_takeWhile]
  · intro hs1 hs2
    rw [projectile_sim]
    rw [show ((pyInt ((10 : ℚ) / 1) + 1).toNat) = 11 from by norm_num [pyInt]; decide]
    rw [show List.range 11 = [0, 1, 2, 3, 4, 5, 6, 7, 8, 9, 10] from rfl]
    have h0 : (0 : ℚ) ≤ heightAt 30 (M.sin (157 / 200)) 1 0 := by
      simp only [heightAt, GRAVITY_CONSTANT]
      push_cast
      linarith
    have h1 : (0 : ℚ) ≤ heightAt 30 (M.sin (157 / 200)) 1 1 := by
      simp only [heightAt, GRAVITY_CONSTANT]
      push_cast
      linarith
    have h2 : (0 : ℚ) ≤ heightAt 30 (M.sin (157 / 200)) 1 2 := by
      simp only [heightAt, GRAVITY_CONSTANT]
      push_cast
      linarith
    have h3 : (0 : ℚ) ≤ heightAt 30 (M.sin (157 / 200)) 1 3 := by
      simp only [heightAt, GRAVITY_CONSTANT]
      push_cast
      linarith
    have h4 : (0 : ℚ) ≤ heightAt 30 (M.sin (157 / 200)) 1 4 := by
      simp only [heightAt, GRAVITY_CONSTANT]
      push_cast
      linarith
    have h5 : ¬(0 : ℚ) ≤ heightAt 30 (M.sin (157 / 200)) 1 5 := by
      simp only [heightAt, GRAVITY_CONSTANT]
      push_cast
      intro hcon
      linarith
    have r0 : round2 (heightAt 30 (M.sin (157 / 200)) 1 0) = 0 := by
      have e : heightAt 30 (M.sin (157 / 200)) 1 0 = 0 := by
        simp [heightAt]
      rw [e]
      norm_num [round2, round_eq]
    have r1 : round2 (heightAt 30 (M.sin (157 / 200)) 1 1) = 163 / 10 := by
      rw [round2_eq_div _ 1630
        (by simp only [heightAt, GRAVITY_CONSTANT]; push_cast; linarith)
        (by simp only [heightAt, GRAVITY_CONSTANT]; push_cast; linarith)]
      norm_num
    have r2 : round2 (heightAt 30 (M.sin (157 / 200)) 1 2) = 2279 / 100 := by
      rw [round2_eq_div _ 2279
        (by simp only [heightAt, GRAVITY_CONSTANT]; push_cast; linarith)
        (by simp only [heightAt, GRAVITY_CONSTANT]; push_cast; linarith)]
      norm_num
    have r3 : round2 (heightAt 30 (M.sin (157 / 200)) 1 3) = 1947 / 100 := by
      rw [round2_eq_div _ 1947
        (by simp only [heightAt, GRAVITY_CONSTANT]; push_cast; linarith)
        (by simp only [heightAt, GRAVITY_CONSTANT]; push_cast; linarith)]
      norm_num
    have r4 : round2 (heightAt 30 (M.sin (157 / 200)) 1 4) = 317 / 50 := by
      rw [round2_eq_div _ 634
        (by simp only [heightAt, GRAVITY_CONSTANT]; push_cast; linarith)
        (by simp only [heightAt, GRAVITY_CONSTANT]; push_cast; linarith)]
      norm_num
    simp only [projSimGo]
    rw [if_pos h0, if_pos h1, if_pos h2, if_pos h3, if_pos h4, if_neg h5]
    rw [r0, r1, r2, r3, r4]

/-- Witness for claim C8 at the concrete MathPrims instance M0. -/
theorem projectile_sim_heights_sequence_witness :
    (0 : ℚ) ≤ 10 ∧ (0 : ℚ) < 1 ∧
    (7068251811053 / 10 ^ 13 ≤ M0.sin (157 / 200)) ∧
    (M0.sin (157 / 200) ≤ 7068251811054 / 10 ^ 13) ∧
    projectile_sim M0 10 1 30 (157 / 200) =
      [0, 163 / 10, 2279 / 100, 1947 / 100, 317 / 50] :=
  ⟨by norm_num, by norm_num, by norm_num [M0], by norm_num [M0],
   (projectile_sim_heights_sequence M0 10 1 30 (157 / 200) (by norm_num) (by norm_num)).2
     (by norm_num [M0]) (by norm_num [M0])⟩

/-- Claim C9: at the start of every load_rocket loop iteration the pending
weight accumulator satisfies 0 at most weight_of_all_items at most
rocket_initial_weight * 0.05: the initial pending weight is 0 and the
while condition forces a positive budget, a surviving weight check keeps
the accumulator within the budget with the item weight in [20, 500], a
weight rejection subtracts the item weight back out, and a volume
rejection does not shrink the weight accumulator below 0 nor above the
budget it already passed. -/
theorem load_rocket_pending_weight_invariant (riw sv : ℚ) (s : LoadState)
    (h : ReachableLoadState riw sv s) :
    0 ≤ s.weight_of_all_items ∧
      s.weight_of_all_items ≤ riw * WEIGHT_THRESHOLD_MAXIMUM := by
  induction h with
  | init h =>
    obtain ⟨h1, h2⟩ := h
    refine ⟨le_refl 0, ?_⟩
    show (0 : ℚ) ≤ riw * WEIGHT_THRESHOLD_MAXIMUM
    have h1' : riw < riw + riw * WEIGHT_THRESHOLD_MAXIMUM := h1
    linarith
  | step s s' i hs hstep hcond ih =>
    cases i with
    | done =>
      simp only [load_rocket_step] at hstep
      split_ifs at hstep
    | box w wd lg ht =>
      simp only [load_rocket_step] at hstep
      split_ifs at hstep with hc hp1 hp2 hw hv
      · injection hstep with hX hrest
        subst hX
        refine ⟨?_, ?_⟩
        · show (0 : ℚ) ≤ s.weight_of_all_items + w - w
          linarith [ih.1]
        · show s.weight_of_all_items + w - w ≤ riw * WEIGHT_THRESHOLD_MAXIMUM
          linarith [ih.2]
      · push_neg at hw
        obtain ⟨hw1, hw2, hw3⟩ := hw
        injection hstep with hX hrest
        subst hX
        refine ⟨?_, ?_⟩
        · show (0 : ℚ) ≤ s.weight_of_all_items + w
          have hmbw : (0 : ℚ) < MIN_BOX_WEIGHT := by norm_num [MIN_BOX_WEIGHT]
          linarith [ih.1]
        · show s.weight_of_all_items + w ≤ riw * WEIGHT_THRESHOLD_MAXIMUM
          exact hw3
      · push_neg at hw
        obtain ⟨hw1, hw2, hw3⟩ := hw
        injection hstep with hX hrest
        subst hX
        refine ⟨?_, ?_⟩
        · show (0 : ℚ) ≤ s.weight_of_all_items + w
          have hmbw : (0 : ℚ) < MIN_BOX_WEIGHT := by norm_num [MIN_BOX_WEIGHT]
          linarith [ih.1]
        · show s.weight_of_all_items + w ≤ riw * WEIGHT_THRESHOLD_MAXIMUM
          exact hw3

/-- Witness for claim C9 at the initial reachable state for
rocket_initial_weight 1000 and storage volume 100. -/
theorem load_rocket_pending_weight_invariant_witness :
    ReachableLoadState 1000 100 ⟨1000, 100, 0, 0⟩ ∧
    (0 ≤ (⟨1000, 100, 0, 0⟩ : LoadState).weight_of_all_items ∧
      (⟨1000, 100, 0, 0⟩ : LoadState).weight_of_all_items ≤
        1000 * WEIGHT_THRESHOLD_MAXIMUM) :=
  have hr : ReachableLoadState 1000 100 ⟨1000, 100, 0, 0⟩ :=
    .init (by norm_num [LoadCond, WEIGHT_THRESHOLD_MAXIMUM, VOLUME_THRESHOLD_MAXIMUM])
  ⟨hr, load_rocket_pending_weight_invariant 1000 100 ⟨1000, 100, 0, 0⟩ hr⟩

/-- Claim C10: the load_rocket while loop terminates on every finite item
source, since every iteration either returns or consumes one entry: the
step-indexed while-loop semantics load_rocket_while, given any step budget
exceeding the length of the item list, finishes and agrees with the total
recursion load_rocket_loop over the remaining input. -/
theorem load_rocket_loop_terminates (riw sv : ℚ) (s : LoadState)
    (items : List ItemEntry) (fuel : ℕ) (h : items.length < fuel) :
    load_rocket_while riw sv s items fuel = some (load_rocket_loop riw sv s items) := by
  induction fuel generalizing s items with
  | zero => exact absurd h (Nat.not_lt_zero _)
  | succ n ih =>
    cases items with
    | nil =>
      simp only [load_rocket_while, load_rocket_loop]
      split_ifs <;> rfl
    | cons i rest =>
      cases i with
      | done =>
        simp only [load_rocket_while, load_rocket_loop]
        split_ifs <;> rfl
      | box w wd lg ht =>
        simp only [load_rocket_while, load_rocket_loop]
        split_ifs <;>
          first
            | rfl
            | (apply ih
               simp only [List.length_cons] at h
               omega)

/-- Witness for claim C10: a one-entry source finishes within budget 2. -/
theorem load_rocket_loop_terminates_witness :
    [ItemEntry.done].length < 2 ∧
    load_rocket_while 500 50 ⟨500, 50, 0, 0⟩ [ItemEntry.done] 2 =
      some (load_rocket_loop 500 50 ⟨500, 50, 0, 0⟩ [ItemEntry.done]) :=
  ⟨by norm_num,
   load_rocket_loop_terminates 500 50 ⟨500, 50, 0, 0⟩ [ItemEntry.done] 2 (by norm_num)⟩

end RocketSim
